import Mathlib

/-!
Verification development for the `modelmeters` summary-generation pipeline.

Shallow embedding of `src/ai-summary.py` (the summary pipeline) and of
`src/monthly/aisummary/count_tokens.py` (the token-accounting collaborator's
`parse_token_line`).

Modelling conventions:
* Python `None` is `Option.none`; fallible operations return `Option`/`Except`.
* Token-count usage values are modelled as integers (`Int`); the service
  reports token counts as integers, so the `isinstance(t, (int, float))`
  numeric test of line 197 becomes presence of the optional value.
* The filesystem, the process environment, the remote service, and the wall
  clock are inputs of the run, collected in a `World` record; `run` mirrors
  the control flow of `main()` line by line.
* Python `str.lower` (used only to compare the model identifier with the
  plain-ASCII name `gpt-5`) is modelled on ASCII letters.  The
  `re.IGNORECASE` literal matcher (`charMatchCI`) models sre's
  per-character folding exactly on this pattern: ASCII casing, the two
  non-ASCII code points whose simple lowercase is an ASCII letter
  (U+212A KELVIN SIGN to `k`, U+0130 to `i`), and sre's equivalence pairs
  touching these literals (`i` with U+0131, `s` with U+017F).  The `\s` and
  `\d` character classes are modelled as their ASCII subsets; in the
  theorems below they are only ever applied to the pipeline's own ASCII
  footer text, which begins at an occurrence of the pattern literal.
* `api_call_seconds` is a float in the source, used only as
  `int(round(api_call_seconds))`; the model carries the rounded integer.
-/

set_option autoImplicit false
set_option maxRecDepth 40000

namespace AISummary

/-! ## Usage objects and token extraction (src/ai-summary.py lines 177-198) -/

/-- The `usage` attribute of the response after the optional `model_dump()`
normalization: either absent (`None`), a mapping, or an object exposing
named attributes.  A mapping entry whose value is Python `None` is an entry
carrying `Option.none`; `getattr(usage, k, None)` on an object is the
function `attrs`. -/
inductive Usage where
  | absent
  | dict (entries : List (String × Option Int))
  | obj (attrs : String → Option Int)

/-- Python `usage.get(k)`: the value stored at `k`, or `None` when the key is
missing. -/
def dictGet (entries : List (String × Option Int)) (k : String) : Option Int :=
  match entries.lookup k with
  | some v => v
  | none => none

/-- `_uget(primary, fallback)` of lines 184-190: look the primary key up and,
when the result is `None` and a fallback key was supplied, look the fallback
up instead.  The non-mapping branch (`getattr` with default `None`) behaves
identically over `obj`, and over absent usage every lookup yields `None`. -/
def uget (usage : Usage) (primary : String) (fallback : Option String) : Option Int :=
  match usage with
  | .dict m =>
      match dictGet m primary, fallback with
      | none, some fb => dictGet m fb
      | v, _ => v
  | .obj attrs =>
      match attrs primary, fallback with
      | none, some fb => attrs fb
      | v, _ => v
  | .absent => none

/-- `input_tokens = _uget("input_tokens", "prompt_tokens")` (line 192). -/
def inputTokens (u : Usage) : Option Int :=
  uget u "input_tokens" (some "prompt_tokens")

/-- `output_tokens = _uget("output_tokens", "completion_tokens")` (line 193). -/
def outputTokens (u : Usage) : Option Int :=
  uget u "output_tokens" (some "completion_tokens")

/-- `total_tokens = _uget("total_tokens")` (line 194), before reconstruction. -/
def totalTokensRaw (u : Usage) : Option Int :=
  uget u "total_tokens" none

/-- Lines 196-198: when the service supplied no total, the total becomes the
sum of those of input/output that are numeric, or stays `None` when neither
is. -/
def fixTotal (it ot tt : Option Int) : Option Int :=
  match tt with
  | some t => some t
  | none =>
      let parts := [it, ot].filterMap id
      if parts.isEmpty then none else some parts.sum

/-- The total token count actually used by the pipeline. -/
def totalTokens (u : Usage) : Option Int :=
  fixTotal (inputTokens u) (outputTokens u) (totalTokensRaw u)

/-- The (input, output, total) triple the pipeline extracts from a usage
object (lines 192-198). -/
def extractUsage (u : Usage) : Option Int × Option Int × Option Int :=
  (inputTokens u, outputTokens u, totalTokens u)

/-! ## Number formatting -/

/-- Decimal digits, fuel-driven so that the recursion is structural and the
kernel can evaluate it; `natChars` below supplies enough fuel. -/
def natCharsAux : Nat → Nat → List Char
  | 0, _ => []
  | fuel + 1, n =>
    if n < 10 then [Nat.digitChar n]
    else natCharsAux fuel (n / 10) ++ [Nat.digitChar (n % 10)]

/-- Decimal digits of a natural number, most significant first; the model of
Python's decimal rendering of a non-negative integer. -/
def natChars (n : Nat) : List Char := natCharsAux (n + 1) n

/-- Insert a comma after every third character of a reversed digit list:
the grouping step of Python's `format(n, ',')`. -/
def commaRev : List Char → List Char
  | [] => []
  | [a] => [a]
  | [a, b] => [a, b]
  | [a, b, c] => [a, b, c]
  | a :: b :: c :: d :: rest => a :: b :: c :: ',' :: commaRev (d :: rest)

/-- Thousands grouping of a digit list. -/
def groupDigits (l : List Char) : List Char :=
  (commaRev l.reverse).reverse

/-- `format(n, ',')` for a natural number. -/
def pyCommaNat (n : Nat) : String :=
  ⟨groupDigits (natChars n)⟩

/-- `format(n, ',')` for an integer. -/
def pyCommaInt (n : Int) : String :=
  if n < 0 then "-" ++ pyCommaNat n.natAbs else pyCommaNat n.toNat

/-- `str(n)` for a natural number. -/
def natStr (n : Nat) : String := ⟨natChars n⟩

/-- `str(n)` for an integer. -/
def intStr (n : Int) : String :=
  if n < 0 then "-" ++ natStr n.natAbs else natStr n.toNat

/-- `format(int(v), ',') if v is not None else 'n/a'` — the rendering of one
token count in the console lines and in the disclaimer (lines 200-202 and
213-215). -/
def renderTok (v : Option Int) : String :=
  match v with
  | some n => pyCommaInt n
  | none => "n/a"

/-! ## Dates (strptime/strftime of lines 108-120 and 220) -/

structure Date where
  year : Nat
  month : Nat
  day : Nat
deriving DecidableEq

def isLeapYear (y : Nat) : Bool :=
  y % 4 == 0 && (y % 100 != 0 || y % 400 == 0)

def daysInMonth (y m : Nat) : Nat :=
  if m == 2 then (if isLeapYear y then 29 else 28)
  else if m == 4 || m == 6 || m == 9 || m == 11 then 30
  else 31

/-- Value of a decimal digit string, most significant first. -/
def digitsToNat (l : List Char) : Nat :=
  l.foldl (fun acc c => acc * 10 + (c.toNat - 48)) 0

/-- Split a character list at every dash, like `str.split("-")`. -/
def splitDash : List Char → List (List Char)
  | [] => [[]]
  | c :: rest =>
    if c = '-' then [] :: splitDash rest
    else
      match splitDash rest with
      | h :: t => (c :: h) :: t
      | [] => [[c]]

/-- `datetime.strptime(s, "%Y-%m-%d")` as a partial function: `%Y` requires
exactly four digits, `%m`/`%d` one or two digits in range, the separators
must be literal dashes with nothing left over, and the day must exist in the
given month (else `ValueError`).  `datetime` also requires `year ≥ 1`. -/
def parseYMD (s : String) : Option Date :=
  match splitDash s.data with
  | [ys, ms, ds] =>
      if ys.length == 4 && ys.all Char.isDigit
          && (ms.length == 1 || ms.length == 2) && ms.all Char.isDigit
          && (ds.length == 1 || ds.length == 2) && ds.all Char.isDigit then
        let y := digitsToNat ys
        let m := digitsToNat ms
        let d := digitsToNat ds
        if 1 ≤ y && 1 ≤ m && m ≤ 12 && 1 ≤ d && d ≤ daysInMonth y m then
          some ⟨y, m, d⟩
        else none
      else none
  | _ => none

/-- Left-pad with a character to a given width. -/
def padLeft (c : Char) (w : Nat) (l : List Char) : List Char :=
  List.replicate (w - l.length) c ++ l

def pad2 (n : Nat) : String := ⟨padLeft '0' 2 (natChars n)⟩

def pad4 (n : Nat) : String := ⟨padLeft '0' 4 (natChars n)⟩

/-- `parsed_date.strftime("%Y-%m-%d")` (line 114): the normalized date
string used to key both artifact paths. -/
def dateStr (d : Date) : String :=
  pad4 d.year ++ "-" ++ pad2 d.month ++ "-" ++ pad2 d.day

def monthName : Nat → String
  | 1 => "January"
  | 2 => "February"
  | 3 => "March"
  | 4 => "April"
  | 5 => "May"
  | 6 => "June"
  | 7 => "July"
  | 8 => "August"
  | 9 => "September"
  | 10 => "October"
  | 11 => "November"
  | 12 => "December"
  | _ => ""

/-- `f"# {parsed_date.day} {parsed_date.strftime('%B %Y')}\n\n"` (line 220). -/
def fullDateTitle (d : Date) : String :=
  "# " ++ natStr d.day ++ " " ++ monthName d.month ++ " " ++ pad4 d.year ++ "\n\n"

/-! ## Model identifier handling and the remote request (lines 143-166, 206-208) -/

/-- ASCII `str.lower`. -/
def pyLowerChar (c : Char) : Char :=
  if 'A' ≤ c ∧ c ≤ 'Z' then Char.ofNat (c.toNat + 32) else c

def pyLower (s : String) : String :=
  ⟨s.data.map pyLowerChar⟩

/-- Python `s or default` for strings: the default replaces an empty
(falsy) string. -/
def pyOr (s default : String) : String :=
  if s = "" then default else s

/-- The module-level default `reasoning_effort = "low"` (line 21), never
overridden elsewhere in the file. -/
def reasoning_effort : String := "low"

/-- The fixed instruction payload `system_message` (lines 57-94). -/
def system_message : String :=
  "\n\n<general instructions>\nYou are a helpful AI assistant that summarises a price list file of new Azure AI Foundry Model meters, and provides a concise overview of the file. The file is provided in ndjson format. Stick to the facts. Do not include a title or preamble.\nWhen summarising, group the models by model provider (using heading level 3), and try to summarise one model per bullet point.\n\n<general instructions/>\n\n<output sections>\n\nA summary of the new Azure AI Foundry Model meters, grouped by model provider.\n\nAfter each model group, use the Microsoft Learn MCP tool to provide links to the documentation for each specific model family, or service mentioned.\n\n<pricing format>\n\n- All the prices are in USD, show prices with a dollar sign.\n- Do not write $3.0 per 1 Hour, write $3/hour. Same for seconds.\n- For $3.0 per 1K tokens, write $3/1k tokens.\n- For $3.0 per 1M tokens, write $3/1M tokens.\n- Do not round up or round down pricing\n- When there are multiple prices for the same model, don\x27t quote the range or individual prices, just state \"from $(lowest price)\".\n- Express prices given in scientific notation as a decimal amount. e.g 5e-05 will be $0.00005\n- Unless otherwise specified, quote the exact price listed.\n\n<pricing format/>\n\n<common abbreviations>\nReasoning\nData Zone\nBatch\nCached\nInput\nOutput\n\n<common abbreviations>\n\n"

/-- The remote request as issued by `client.responses.create` (lines
153-166).  The tool declaration is a fixed constant and is omitted from the
record; `reasoning` carries the effort exactly when the spread
`**({"reasoning": {"effort": reasoning_effort}} if azure_model.lower() == "gpt-5" else {})`
adds it. -/
structure Request where
  model : String
  reasoning : Option String
  instructions : String
  input : String
deriving DecidableEq

def mkRequest (model effort instructions input : String) : Request :=
  { model := model
    reasoning := if pyLower model = "gpt-5" then some effort else none
    instructions := instructions
    input := input }

/-- `reasoning_effort_text` (lines 206-208). -/
def reasoningEffortText (model effort : String) : String :=
  if pyLower model = "gpt-5" then " with " ++ effort ++ " reasoning effort" else ""

/-! ## Document rendering (lines 210-221) -/

/-- The disclaimer paragraph (lines 210-216). -/
def disclaimer (apiCallSeconds : Int) (currentDateUK : String) (model : String)
    (effortText : String) (it ot tt : Option Int) : String :=
  "_This summary was AI-generated in " ++ intStr apiCallSeconds ++ " seconds on " ++
    currentDateUK ++ " using " ++ pyOr model "an Azure model" ++ effortText ++
    ".<br>It may contain mistakes, or outdated pricing data. " ++
    "Always use the Azure Retail Prices API for live pricing. The existence of a price meter does not always imply model/service availability. Prices vary depending on different factors, including region.<br>" ++
    "Input tokens: " ++ renderTok it ++ " | " ++
    "Output tokens: " ++ renderTok ot ++ " | " ++
    "Total tokens: " ++ renderTok tt ++ "._"

/-- `final_markdown = f"{full_date_title}{content or ''}\n\n{disclaimer}"`
(lines 220-221). -/
def final_markdown (d : Date) (content : String) (disc : String) : String :=
  fullDateTitle d ++ pyOr content "" ++ "\n\n" ++ disc

/-- The document renderer as a whole: everything `main()` composes between
extraction and the write (lines 206-221), as a function of its inputs. -/
def renderDocument (d : Date) (content : String) (it ot tt : Option Int)
    (model : String) (apiCallSeconds : Int) (effort : String)
    (currentDateUK : String) : String :=
  final_markdown d content
    (disclaimer apiCallSeconds currentDateUK model
      (reasoningEffortText model effort) it ot tt)

/-! ## The pipeline (lines 97-226) -/

/-- The response object of a successful remote call: `output_text` read via
`getattr(response, "output_text", "")`, and the usage object. -/
structure RemoteResponse where
  output_text : Option String
  usage : Usage

/-- Everything outside the program that a run observes: the parsed CLI
arguments, the filesystem, the process environment, the remote service's
behaviour, and the wall clock. -/
structure World where
  dateArg : Option String
  force : Bool
  baseDir : String
  fsExists : String → Bool
  readResult : Except String String
  azure_key : Option String
  azure_endpoint : Option String
  azure_model : Option String
  remote : Except String RemoteResponse
  apiCallSeconds : Int
  writeOk : Bool
  currentDateUK : String

/-- Python truthiness of an optional string (`os.getenv` result): false for
`None` and for the empty string. -/
def pyTruthy : Option String → Bool
  | none => false
  | some s => s != ""

/-- `os.path.join(base_dir, "monthly", "partial", f"{date_str}.ndjson")`. -/
def inputPath (baseDir ds : String) : String :=
  baseDir ++ "/monthly/partial/" ++ ds ++ ".ndjson"

/-- `os.path.join(base_dir, "monthly", "aisummary", f"{date_str}.md")`. -/
def outputPath (baseDir ds : String) : String :=
  baseDir ++ "/monthly/aisummary/" ++ ds ++ ".md"

/-- Line 139: `if not azure_key or not azure_endpoint or not azure_model`. -/
def configOk (w : World) : Bool :=
  pyTruthy w.azure_key && pyTruthy w.azure_endpoint && pyTruthy w.azure_model

/-- The observable outcome of one run: the exit code (falling off the end of
`main` is exit 0), the remote request if one was issued, whether the write
step was reached, and the document contents persisted on success. -/
structure Outcome where
  exitCode : Nat
  request : Option Request
  wroteAttempted : Bool
  written : Option String
deriving DecidableEq

/-- `main()` of src/ai-summary.py, lines 97-226, as a function of the world.
Each early `sys.exit(n)` is an `Outcome` with that code. -/
def run (w : World) : Outcome :=
  match w.dateArg with
  | none => ⟨1, none, false, none⟩
  | some s =>
    if s = "" then ⟨1, none, false, none⟩
    else
      match parseYMD s with
      | none => ⟨2, none, false, none⟩
      | some d =>
        let ds := dateStr d
        if !(w.fsExists (inputPath w.baseDir ds)) then ⟨3, none, false, none⟩
        else if w.fsExists (outputPath w.baseDir ds) && !w.force then
          ⟨0, none, false, none⟩
        else
          match w.readResult with
          | .error _ => ⟨4, none, false, none⟩
          | .ok ndjsonContent =>
            if !(configOk w) then ⟨7, none, false, none⟩
            else
              let model := w.azure_model.getD ""
              let req := mkRequest model reasoning_effort system_message ndjsonContent
              match w.remote with
              | .error _ => ⟨5, some req, false, none⟩
              | .ok resp =>
                let content := resp.output_text.getD ""
                let doc := renderDocument d content
                  (inputTokens resp.usage) (outputTokens resp.usage)
                  (totalTokens resp.usage) model w.apiCallSeconds
                  reasoning_effort w.currentDateUK
                if w.writeOk then ⟨0, some req, true, some doc⟩
                else ⟨6, some req, true, none⟩

/-! ## The token-accounting collaborator
(`parse_token_line`, src/monthly/aisummary/count_tokens.py lines 9-25) -/

/-- Python `\s` over ASCII. -/
def isPySpace (c : Char) : Bool :=
  c = ' ' || c = '\t' || c = '\n' || c = '\r' || c = '\x0b' || c = '\x0c'

/-- The character class `[\d,]`. -/
def isDigitComma (c : Char) : Bool :=
  c.isDigit || c = ','

/-- The single-character lowering CPython's sre applies under
`re.IGNORECASE` (the simple Unicode lowercase mapping), restricted to the
characters that can fold into this pattern's literals: ASCII letters, plus
the only two non-ASCII code points whose simple lowercase is an ASCII
letter — U+212A KELVIN SIGN (lowers to `k`) and U+0130 LATIN CAPITAL LETTER
I WITH DOT ABOVE (simple-lowers to `i`).  Every other character is left
unchanged, which is exact for matching against ASCII pattern literals. -/
def sreLower (c : Char) : Char :=
  if 'A' ≤ c ∧ c ≤ 'Z' then Char.ofNat (c.toNat + 32)
  else if c = '\u212A' then 'k'
  else if c = '\u0130' then 'i'
  else c

/-- One pattern character matching one input character under
`re.IGNORECASE`: equal simple lowercases, extended by sre's equivalence
pairs that touch these literals (`i` with U+0131 DOTLESS I, `s` with
U+017F LONG S). -/
def charMatchCI (p x : Char) : Bool :=
  sreLower x = sreLower p ||
  (p = 'i' && x = '\u0131') || (p = 's' && x = '\u017F')

/-- Consume a literal from the head of the input, case-insensitively
(`re.IGNORECASE` with sre's folding); returns the rest on success. -/
def matchLitCI : List Char → List Char → Option (List Char)
  | [], l => some l
  | _ :: _, [] => none
  | c :: cs, x :: xs =>
      if charMatchCI c x then matchLitCI cs xs else none

/-- One anchored attempt of `TOKEN_LINE_RE` at the head of the input,
returning the three `[\d,]+` groups.  The `\s*`/`[\d,]+` repetitions are
maximal-munch, which coincides with the regex's backtracking semantics
because the character classes involved are pairwise disjoint. -/
def matchTokensAt (l : List Char) : Option (List Char × List Char × List Char) :=
  match matchLitCI "input tokens:".data l with
  | none => none
  | some r0 =>
    let r1 := r0.dropWhile isPySpace
    let g1 := r1.takeWhile isDigitComma
    let r2 := r1.dropWhile isDigitComma
    if g1.isEmpty then none
    else
      match matchLitCI "|".data (r2.dropWhile isPySpace) with
      | none => none
      | some r4 =>
        match matchLitCI "output tokens:".data (r4.dropWhile isPySpace) with
        | none => none
        | some r6 =>
          let r7 := r6.dropWhile isPySpace
          let g2 := r7.takeWhile isDigitComma
          let r8 := r7.dropWhile isDigitComma
          if g2.isEmpty then none
          else
            match matchLitCI "|".data (r8.dropWhile isPySpace) with
            | none => none
            | some r10 =>
              match matchLitCI "total tokens:".data (r10.dropWhile isPySpace) with
              | none => none
              | some r12 =>
                let g3 := (r12.dropWhile isPySpace).takeWhile isDigitComma
                if g3.isEmpty then none else some (g1, g2, g3)

/-- `TOKEN_LINE_RE.search`: the leftmost position where the pattern
matches. -/
def searchTokens : List Char → Option (List Char × List Char × List Char)
  | [] => matchTokensAt []
  | x :: t =>
    match matchTokensAt (x :: t) with
    | some r => some r
    | none => searchTokens t

/-- `int(s.replace(",", "").strip())` on a `[\d,]+` group; `none` models the
`ValueError` raised when the group consists of commas only. -/
def toIntStripped (l : List Char) : Option Nat :=
  let ds := l.filter (fun c => c != ',')
  if ds.isEmpty then none else some (digitsToNat ds)

/-- `parse_token_line` (count_tokens.py lines 15-25): `.ok none` when the
pattern is not found, `.ok (some triple)` on success, `.error ()` when
`int()` raises on a degenerate group. -/
def parse_token_line (text : String) : Except Unit (Option (Nat × Nat × Nat)) :=
  match searchTokens text.data with
  | none => .ok none
  | some (g1, g2, g3) =>
    match toIntStripped g1, toIntStripped g2, toIntStripped g3 with
    | some a, some b, some c => .ok (some (a, b, c))
    | _, _, _ => .error ()

/-- The token portion of the disclaimer footer, as characters: the shape the
renderer produces and `TOKEN_LINE_RE` consumes.  `a`, `b`, `c` are the three
rendered counts and `rest` is whatever follows the total. -/
def tokenSegment (a b c rest : List Char) : List Char :=
  "Input tokens: ".data ++ a ++ " | ".data ++ "Output tokens: ".data ++ b ++
    " | ".data ++ "Total tokens: ".data ++ c ++ rest

/-- `True` when a case-insensitive occurrence of `input tokens:` starts at
the head of the list. -/
def isTokPrefixCI (l : List Char) : Bool :=
  (matchLitCI "input tokens:".data l).isSome

/-- The number of positions of the list at which a case-insensitive
occurrence of `input tokens:` starts. -/
def countTokenLit : List Char → Nat
  | [] => 0
  | x :: t => (if isTokPrefixCI (x :: t) then 1 else 0) + countTokenLit t

/-! ## Concrete worlds used by counterexamples and witnesses -/

/-- A run whose remote service reports a total that disagrees with
input + output. -/
def c2World : World :=
  { dateArg := some "2025-08-01"
    force := false
    baseDir := "."
    fsExists := fun p => p == "./monthly/partial/2025-08-01.ndjson"
    readResult := .ok "{}"
    azure_key := some "k"
    azure_endpoint := some "e"
    azure_model := some "gpt-5"
    remote := .ok { output_text := some "Body."
                    usage := Usage.dict [("input_tokens", some 1),
                      ("output_tokens", some 2), ("total_tokens", some 100)] }
    apiCallSeconds := 3
    writeOk := true
    currentDateUK := "1 August 2025" }

/-- A run where both the input dataset and the output document exist and
force is unset. -/
def c4World : World :=
  { dateArg := some "2025-08-01"
    force := false
    baseDir := "."
    fsExists := fun p =>
      p == "./monthly/partial/2025-08-01.ndjson" ||
        p == "./monthly/aisummary/2025-08-01.md"
    readResult := .ok "{}"
    azure_key := some "k"
    azure_endpoint := some "e"
    azure_model := some "gpt-5"
    remote := .error "service unreachable"
    apiCallSeconds := 0
    writeOk := true
    currentDateUK := "1 August 2025" }

/-- A run invoked without a date argument. -/
def c5World : World :=
  { dateArg := none
    force := false
    baseDir := "."
    fsExists := fun _ => false
    readResult := .error "no file"
    azure_key := none
    azure_endpoint := none
    azure_model := none
    remote := .error "not called"
    apiCallSeconds := 0
    writeOk := false
    currentDateUK := "1 August 2025" }

/-- A run whose input dataset is missing. -/
def c8World : World :=
  { dateArg := some "2025-08-01"
    force := false
    baseDir := "."
    fsExists := fun _ => false
    readResult := .error "unused"
    azure_key := some "k"
    azure_endpoint := some "e"
    azure_model := some "gpt-5"
    remote := .error "unused"
    apiCallSeconds := 0
    writeOk := true
    currentDateUK := "1 August 2025" }

/-- A run with a missing input dataset and no configuration at all. -/
def c10World : World :=
  { dateArg := some "2025-08-01"
    force := false
    baseDir := "."
    fsExists := fun _ => false
    readResult := .error "unused"
    azure_key := none
    azure_endpoint := none
    azure_model := none
    remote := .error "unused"
    apiCallSeconds := 0
    writeOk := true
    currentDateUK := "1 August 2025" }

/-- The usage object of the C7 counterexample: an attribute-bearing object
exposing only `output_tokens`. -/
def c7Usage : Usage :=
  Usage.obj (fun k => if k == "output_tokens" then some 7 else none)


/-! # Theorems

First the supporting lemmas about formatting, matching and the pipeline,
then one theorem (with witness / counterexample) per specification claim. -/

/-! ## Decimal formatting -/

theorem natCharsAux_fuel (n : Nat) : ∀ f₁ f₂, n < f₁ → n < f₂ →
    natCharsAux f₁ n = natCharsAux f₂ n := by
  induction n using Nat.strong_induction_on with
  | _ n ih =>
    intro f₁ f₂ h₁ h₂
    match f₁, f₂ with
    | a + 1, b + 1 =>
      by_cases h : n < 10
      · simp [natCharsAux, h]
      · simp only [natCharsAux, if_neg h]
        have hdiv : n / 10 < n := Nat.div_lt_self (by omega) (by omega)
        rw [ih (n / 10) hdiv a b (by omega) (by omega)]

theorem natChars_eq (n : Nat) :
    natChars n = if n < 10 then [Nat.digitChar n]
      else natChars (n / 10) ++ [Nat.digitChar (n % 10)] := by
  by_cases h : n < 10
  · simp only [natChars, natCharsAux, if_pos h]
  · have hdiv : n / 10 < n := Nat.div_lt_self (by omega) (by omega)
    rw [if_neg h]
    have h1 : natChars n = natCharsAux n (n / 10) ++ [Nat.digitChar (n % 10)] := by
      simp only [natChars, natCharsAux, if_neg h]
    rw [h1, natCharsAux_fuel (n / 10) n (n / 10 + 1) hdiv (by omega)]
    rfl

theorem natChars_ne_nil (n : Nat) : natChars n ≠ [] := by
  rw [natChars_eq]
  by_cases h : n < 10 <;> simp [h]

theorem digitChar_isDigit : ∀ d, d < 10 → (Nat.digitChar d).isDigit = true := by decide

theorem digitChar_val : ∀ d, d < 10 → (Nat.digitChar d).toNat - 48 = d := by decide

theorem natChars_digits (n : Nat) : ∀ c ∈ natChars n, c.isDigit = true := by
  induction n using Nat.strong_induction_on with
  | _ n ih =>
    rw [natChars_eq]
    by_cases h : n < 10
    · simp only [if_pos h, List.mem_singleton]
      intro c hc
      rw [hc]
      exact digitChar_isDigit n h
    · have hdiv : n / 10 < n := Nat.div_lt_self (by omega) (by omega)
      simp only [if_neg h, List.mem_append, List.mem_singleton]
      intro c hc
      rcases hc with hc | hc
      · exact ih (n / 10) hdiv c hc
      · rw [hc]; exact digitChar_isDigit (n % 10) (Nat.mod_lt n (by omega))

theorem digitsToNat_append_singleton (l : List Char) (c : Char) :
    digitsToNat (l ++ [c]) = digitsToNat l * 10 + (c.toNat - 48) := by
  simp [digitsToNat, List.foldl_append]

theorem digitsToNat_natChars (n : Nat) : digitsToNat (natChars n) = n := by
  induction n using Nat.strong_induction_on with
  | _ n ih =>
    rw [natChars_eq]
    by_cases h : n < 10
    · rw [if_pos h]
      show 0 * 10 + ((Nat.digitChar n).toNat - 48) = n
      have := digitChar_val n h
      omega
    · have hdiv : n / 10 < n := Nat.div_lt_self (by omega) (by omega)
      rw [if_neg h, digitsToNat_append_singleton, ih (n / 10) hdiv,
        digitChar_val (n % 10) (Nat.mod_lt n (by omega))]
      omega

theorem natChars_ne_comma (n : Nat) : ∀ c ∈ natChars n, c ≠ ',' := by
  intro c hc heq
  have := natChars_digits n c hc
  rw [heq] at this
  simp at this

theorem commaRev_mem (l : List Char) : ∀ c ∈ commaRev l, c ∈ l ∨ c = ',' := by
  induction l using commaRev.induct with
  | case1 => intro x hx; exact Or.inl hx
  | case2 a => intro x hx; exact Or.inl hx
  | case3 a b => intro x hx; exact Or.inl hx
  | case4 a b c => intro x hx; exact Or.inl hx
  | case5 a b c d rest ih =>
    intro x hx
    rw [commaRev] at hx
    simp only [List.mem_cons] at hx ⊢
    rcases hx with h | h | h | h | h
    · exact Or.inl (Or.inl h)
    · exact Or.inl (Or.inr (Or.inl h))
    · exact Or.inl (Or.inr (Or.inr (Or.inl h)))
    · exact Or.inr h
    · rcases ih x h with h2 | h2
      · simp only [List.mem_cons] at h2
        rcases h2 with h2 | h2
        · exact Or.inl (Or.inr (Or.inr (Or.inr (Or.inl h2))))
        · exact Or.inl (Or.inr (Or.inr (Or.inr (Or.inr h2))))
      · exact Or.inr h2

theorem commaRev_filter (l : List Char) (h : ∀ c ∈ l, c ≠ ',') :
    (commaRev l).filter (fun c => c != ',') = l := by
  induction l using commaRev.induct with
  | case1 => rfl
  | case2 a =>
    simp [commaRev, List.filter_cons, h a (by simp)]
  | case3 a b =>
    simp [commaRev, List.filter_cons, h a (by simp), h b (by simp)]
  | case4 a b c =>
    simp [commaRev, List.filter_cons, h a (by simp), h b (by simp), h c (by simp)]
  | case5 a b c d rest ih =>
    have hrec := ih (fun x hx => h x (by simp only [List.mem_cons] at hx ⊢; tauto))
    rw [commaRev]
    simp [List.filter_cons, h a (by simp), h b (by simp), h c (by simp), hrec]

theorem commaRev_ne_nil (l : List Char) (h : l ≠ []) : commaRev l ≠ [] := by
  induction l using commaRev.induct with
  | case1 => exact h
  | case2 a => simp [commaRev]
  | case3 a b => simp [commaRev]
  | case4 a b c => simp [commaRev]
  | case5 a b c d rest ih => rw [commaRev]; simp

theorem groupDigits_mem (l : List Char) : ∀ c ∈ groupDigits l, c ∈ l ∨ c = ',' := by
  intro c hc
  unfold groupDigits at hc
  rw [List.mem_reverse] at hc
  rcases commaRev_mem l.reverse c hc with h | h
  · exact Or.inl (List.mem_reverse.mp h)
  · exact Or.inr h

theorem groupDigits_ne_nil (l : List Char) (h : l ≠ []) : groupDigits l ≠ [] := by
  unfold groupDigits
  simp only [ne_eq, List.reverse_eq_nil_iff]
  exact commaRev_ne_nil l.reverse (by simpa using h)

theorem groupDigits_filter (l : List Char) (h : ∀ c ∈ l, c ≠ ',') :
    (groupDigits l).filter (fun c => c != ',') = l := by
  unfold groupDigits
  rw [List.filter_reverse,
    commaRev_filter l.reverse (fun c hc => h c (List.mem_reverse.mp hc)),
    List.reverse_reverse]

theorem toIntStripped_groupDigits (n : Nat) :
    toIntStripped (groupDigits (natChars n)) = some n := by
  unfold toIntStripped
  rw [groupDigits_filter (natChars n) (natChars_ne_comma n)]
  simp only [List.isEmpty_iff]
  rw [if_neg (natChars_ne_nil n)]
  rw [digitsToNat_natChars]

/-! ## The token-line matcher on rendered footers -/

theorem space_not_dc (ch : Char) (h : isPySpace ch = true) : isDigitComma ch = false := by
  unfold isPySpace at h
  simp only [Bool.or_eq_true, decide_eq_true_eq] at h
  rcases h with ((((h | h) | h) | h) | h) | h <;> subst h <;> rfl

theorem dc_not_space (ch : Char) (h : isDigitComma ch = true) : isPySpace ch = false := by
  cases hs : isPySpace ch
  · rfl
  · rw [space_not_dc ch hs] at h
    cases h

theorem dropWhile_space_dc (l r : List Char) (hne : l ≠ [])
    (hdc : ∀ x ∈ l, isDigitComma x = true) :
    List.dropWhile isPySpace (l ++ r) = l ++ r := by
  rcases l with _ | ⟨x, xs⟩
  · exact absurd rfl hne
  · rw [List.cons_append, List.dropWhile_cons,
      dc_not_space x (hdc x (by simp))]
    simp

theorem takeWhile_dc_append (l r : List Char) (hdc : ∀ x ∈ l, isDigitComma x = true) :
    List.takeWhile isDigitComma (l ++ r) = l ++ List.takeWhile isDigitComma r := by
  induction l with
  | nil => simp
  | cons x xs ih =>
    rw [List.cons_append, List.takeWhile_cons, hdc x (by simp)]
    rw [ih (fun y hy => hdc y (by simp [hy]))]
    simp

theorem dropWhile_dc_append (l r : List Char) (hdc : ∀ x ∈ l, isDigitComma x = true) :
    List.dropWhile isDigitComma (l ++ r) = List.dropWhile isDigitComma r := by
  induction l with
  | nil => simp
  | cons x xs ih =>
    rw [List.cons_append, List.dropWhile_cons, hdc x (by simp)]
    simp only [if_true]
    exact ih (fun y hy => hdc y (by simp [hy]))

theorem mlci_input (r : List Char) :
    matchLitCI "input tokens:".data ("Input tokens: ".data ++ r) = some (' ' :: r) := rfl

theorem mlci_output (r : List Char) :
    matchLitCI "output tokens:".data
      (List.dropWhile isPySpace (' ' :: ("Output tokens: ".data ++ r))) = some (' ' :: r) := rfl

theorem mlci_total (r : List Char) :
    matchLitCI "total tokens:".data
      (List.dropWhile isPySpace (' ' :: ("Total tokens: ".data ++ r))) = some (' ' :: r) := rfl

theorem sep_dropWhile_space (r : List Char) :
    List.dropWhile isPySpace (" | ".data ++ r) = '|' :: (' ' :: r) := rfl

theorem mlci_bar (r : List Char) : matchLitCI "|".data ('|' :: r) = some r := rfl

theorem dw_space_cons (X : List Char) :
    List.dropWhile isPySpace (' ' :: X) = List.dropWhile isPySpace X := rfl

theorem sep_takeWhile_dc (r : List Char) :
    List.takeWhile isDigitComma (" | ".data ++ r) = [] := rfl

theorem sep_dropWhile_dc (r : List Char) :
    List.dropWhile isDigitComma (" | ".data ++ r) = " | ".data ++ r := rfl

theorem matchTokensAt_segment (a b c rest : List Char)
    (ha : ∀ x ∈ a, isDigitComma x = true) (hb : ∀ x ∈ b, isDigitComma x = true)
    (hc : ∀ x ∈ c, isDigitComma x = true)
    (hna : a ≠ []) (hnb : b ≠ []) (hnc : c ≠ [])
    (hrest : List.takeWhile isDigitComma rest = []) :
    matchTokensAt (tokenSegment a b c rest) = some (a, b, c) := by
  unfold tokenSegment matchTokensAt
  rw [show ("Input tokens: ".data ++ a ++ " | ".data ++ "Output tokens: ".data ++ b ++
      " | ".data ++ "Total tokens: ".data ++ c ++ rest : List Char) =
      "Input tokens: ".data ++ (a ++ (" | ".data ++ ("Output tokens: ".data ++ (b ++
      (" | ".data ++ ("Total tokens: ".data ++ (c ++ rest))))))) from by
    simp [List.append_assoc]]
  rw [mlci_input]
  dsimp only
  rw [dw_space_cons, dropWhile_space_dc a _ hna ha]
  rw [takeWhile_dc_append a _ ha, sep_takeWhile_dc, List.append_nil]
  rw [dropWhile_dc_append a _ ha, sep_dropWhile_dc]
  rw [if_neg (by simpa [List.isEmpty_iff] using hna)]
  rw [sep_dropWhile_space, mlci_bar]
  dsimp only
  rw [mlci_output]
  dsimp only
  rw [dw_space_cons, dropWhile_space_dc b _ hnb hb]
  rw [takeWhile_dc_append b _ hb, sep_takeWhile_dc, List.append_nil]
  rw [dropWhile_dc_append b _ hb, sep_dropWhile_dc]
  rw [if_neg (by simpa [List.isEmpty_iff] using hnb)]
  rw [sep_dropWhile_space, mlci_bar]
  dsimp only
  rw [mlci_total]
  dsimp only
  rw [dw_space_cons, dropWhile_space_dc c _ hnc hc]
  rw [takeWhile_dc_append c _ hc, hrest, List.append_nil]
  rw [if_neg (by simpa [List.isEmpty_iff] using hnc)]

theorem matchTokensAt_none_of_not_lit (l : List Char) (h : isTokPrefixCI l = false) :
    matchTokensAt l = none := by
  unfold isTokPrefixCI at h
  unfold matchTokensAt
  rcases hm : matchLitCI "input tokens:".data l with _ | r
  · rfl
  · rw [hm] at h
    simp at h

theorem isTokPrefixCI_nil : isTokPrefixCI [] = false := rfl

theorem count_pos_of_startTok (u v : List Char) (hv : isTokPrefixCI v = true) :
    1 ≤ countTokenLit (u ++ v) := by
  induction u with
  | nil =>
    simp only [List.nil_append]
    rcases v with _ | ⟨x, t⟩
    · rw [isTokPrefixCI_nil] at hv
      cases hv
    · show 1 ≤ (if isTokPrefixCI (x :: t) then 1 else 0) + countTokenLit t
      rw [hv]
      simp
  | cons x t ih =>
    rw [List.cons_append]
    show 1 ≤ (if isTokPrefixCI (x :: (t ++ v)) then 1 else 0) + countTokenLit (t ++ v)
    split <;> omega

theorem searchTokens_cons_none (x : Char) (t : List Char)
    (h : matchTokensAt (x :: t) = none) : searchTokens (x :: t) = searchTokens t := by
  rw [show searchTokens (x :: t) = (match matchTokensAt (x :: t) with
      | some r => some r | none => searchTokens t) from rfl, h]

theorem searchTokens_matchAt (v : List Char) (r : List Char × List Char × List Char)
    (h : matchTokensAt v = some r) : searchTokens v = some r := by
  rcases v with _ | ⟨x, t⟩
  · rw [show searchTokens [] = matchTokensAt [] from rfl, h]
  · rw [show searchTokens (x :: t) = (match matchTokensAt (x :: t) with
      | some r => some r | none => searchTokens t) from rfl, h]

theorem searchTokens_unique (u v : List Char) (hv : isTokPrefixCI v = true)
    (hcount : countTokenLit (u ++ v) = 1) : searchTokens (u ++ v) = searchTokens v := by
  induction u with
  | nil => rfl
  | cons x t ih =>
    rw [List.cons_append] at hcount ⊢
    have hge := count_pos_of_startTok t v hv
    have hcc : countTokenLit (x :: (t ++ v)) =
        (if isTokPrefixCI (x :: (t ++ v)) then 1 else 0) + countTokenLit (t ++ v) := rfl
    have hflag : isTokPrefixCI (x :: (t ++ v)) = false := by
      rcases hb : isTokPrefixCI (x :: (t ++ v))
      · rfl
      · rw [hcc, hb, if_pos rfl] at hcount
        omega
    rw [searchTokens_cons_none x (t ++ v) (matchTokensAt_none_of_not_lit _ hflag)]
    apply ih
    rw [hcc, hflag] at hcount
    simpa using hcount

theorem renderTok_ofNat (n : Nat) : renderTok (some (n : Int)) = pyCommaNat n := by
  show (if (n : Int) < 0 then "-" ++ pyCommaNat (n : Int).natAbs
    else pyCommaNat (n : Int).toNat) = pyCommaNat n
  rw [if_neg (by omega)]
  simp

theorem data_pyCommaNat (n : Nat) : (pyCommaNat n).data = groupDigits (natChars n) := rfl

theorem pyCommaNat_dc (n : Nat) :
    ∀ x ∈ (pyCommaNat n).data, isDigitComma x = true := by
  intro x hx
  rw [data_pyCommaNat] at hx
  rcases groupDigits_mem (natChars n) x hx with h | h
  · unfold isDigitComma
    rw [natChars_digits n x h]
    simp
  · subst h
    rfl

theorem pyCommaNat_ne_nil (n : Nat) : (pyCommaNat n).data ≠ [] := by
  rw [data_pyCommaNat]
  exact groupDigits_ne_nil (natChars n) (natChars_ne_nil n)

theorem toIntStripped_pyCommaNat (n : Nat) :
    toIntStripped (pyCommaNat n).data = some n := by
  rw [data_pyCommaNat]
  exact toIntStripped_groupDigits n

theorem segment_startsTok (a b c rest : List Char) :
    isTokPrefixCI (tokenSegment a b c rest) = true := by
  unfold isTokPrefixCI tokenSegment
  rw [show ("Input tokens: ".data ++ a ++ " | ".data ++ "Output tokens: ".data ++ b ++
      " | ".data ++ "Total tokens: ".data ++ c ++ rest : List Char) =
      "Input tokens: ".data ++ (a ++ (" | ".data ++ ("Output tokens: ".data ++ (b ++
      (" | ".data ++ ("Total tokens: ".data ++ (c ++ rest))))))) from by
    simp [List.append_assoc]]
  rw [mlci_input]
  rfl

theorem data_append (s t : String) : (s ++ t).data = s.data ++ t.data := rfl

theorem pyCommaNat_ne_na (m : Nat) : pyCommaNat m ≠ "n/a" := by
  intro h
  have hn : 'n' ∈ (pyCommaNat m).data := by
    rw [h]
    decide
  exact absurd (pyCommaNat_dc m 'n' hn) (by decide)

theorem pyCommaInt_ne_na (n : Int) : pyCommaInt n ≠ "n/a" := by
  unfold pyCommaInt
  split
  · intro h
    have hd := congrArg String.data h
    rw [data_append] at hd
    rw [show ("-" : String).data = ['-'] from rfl] at hd
    rw [show ("n/a" : String).data = ['n', '/', 'a'] from rfl] at hd
    injection hd with h1 h2
    exact absurd h1 (by decide)
  · exact pyCommaNat_ne_na _

theorem renderTok_some_ne_na (n : Int) : renderTok (some n) ≠ "n/a" :=
  pyCommaInt_ne_na n


/-! ## Pipeline control flow -/

theorem run_missing_date (w : World) (h : w.dateArg = none ∨ w.dateArg = some "") :
    run w = ⟨1, none, false, none⟩ := by
  rcases h with h | h <;> simp [run, h]

theorem run_bad_date (w : World) (s : String) (hs : w.dateArg = some s)
    (hne : s ≠ "") (hp : parseYMD s = none) :
    run w = ⟨2, none, false, none⟩ := by
  simp [run, hs, hne, hp]

theorem run_no_input (w : World) (s : String) (d : Date) (hs : w.dateArg = some s)
    (hne : s ≠ "") (hp : parseYMD s = some d)
    (hin : w.fsExists (inputPath w.baseDir (dateStr d)) = false) :
    run w = ⟨3, none, false, none⟩ := by
  simp [run, hs, hne, hp, hin]

theorem run_skip (w : World) (s : String) (d : Date) (hs : w.dateArg = some s)
    (hne : s ≠ "") (hp : parseYMD s = some d)
    (hin : w.fsExists (inputPath w.baseDir (dateStr d)) = true)
    (hout : w.fsExists (outputPath w.baseDir (dateStr d)) = true)
    (hforce : w.force = false) :
    run w = ⟨0, none, false, none⟩ := by
  simp [run, hs, hne, hp, hin, hout, hforce]

theorem run_read_err (w : World) (s : String) (d : Date) (e : String)
    (hs : w.dateArg = some s) (hne : s ≠ "") (hp : parseYMD s = some d)
    (hin : w.fsExists (inputPath w.baseDir (dateStr d)) = true)
    (hnoskip : w.fsExists (outputPath w.baseDir (dateStr d)) = false ∨ w.force = true)
    (hread : w.readResult = .error e) :
    run w = ⟨4, none, false, none⟩ := by
  rcases hnoskip with h | h <;> simp [run, hs, hne, hp, hin, h, hread]

theorem run_no_config (w : World) (s : String) (d : Date) (c : String)
    (hs : w.dateArg = some s) (hne : s ≠ "") (hp : parseYMD s = some d)
    (hin : w.fsExists (inputPath w.baseDir (dateStr d)) = true)
    (hnoskip : w.fsExists (outputPath w.baseDir (dateStr d)) = false ∨ w.force = true)
    (hread : w.readResult = .ok c) (hcfg : configOk w = false) :
    run w = ⟨7, none, false, none⟩ := by
  rcases hnoskip with h | h <;> simp [run, hs, hne, hp, hin, h, hread, hcfg]

theorem run_remote_err (w : World) (s : String) (d : Date) (c e : String)
    (hs : w.dateArg = some s) (hne : s ≠ "") (hp : parseYMD s = some d)
    (hin : w.fsExists (inputPath w.baseDir (dateStr d)) = true)
    (hnoskip : w.fsExists (outputPath w.baseDir (dateStr d)) = false ∨ w.force = true)
    (hread : w.readResult = .ok c) (hcfg : configOk w = true)
    (hrem : w.remote = .error e) :
    run w = ⟨5, some (mkRequest (w.azure_model.getD "") reasoning_effort system_message c),
             false, none⟩ := by
  rcases hnoskip with h | h <;> simp [run, hs, hne, hp, hin, h, hread, hcfg, hrem]

theorem run_write (w : World) (s : String) (d : Date) (c : String)
    (resp : RemoteResponse)
    (hs : w.dateArg = some s) (hne : s ≠ "") (hp : parseYMD s = some d)
    (hin : w.fsExists (inputPath w.baseDir (dateStr d)) = true)
    (hnoskip : w.fsExists (outputPath w.baseDir (dateStr d)) = false ∨ w.force = true)
    (hread : w.readResult = .ok c) (hcfg : configOk w = true)
    (hrem : w.remote = .ok resp) :
    run w =
      if w.writeOk then
        ⟨0, some (mkRequest (w.azure_model.getD "") reasoning_effort system_message c), true,
          some (renderDocument d (resp.output_text.getD "")
            (inputTokens resp.usage) (outputTokens resp.usage) (totalTokens resp.usage)
            (w.azure_model.getD "") w.apiCallSeconds reasoning_effort w.currentDateUK)⟩
      else ⟨6, some (mkRequest (w.azure_model.getD "") reasoning_effort system_message c),
             true, none⟩ := by
  rcases hnoskip with h | h <;> simp [run, hs, hne, hp, hin, h, hread, hcfg, hrem]

theorem run_shape (w : World) :
    run w = ⟨1, none, false, none⟩ ∨ run w = ⟨2, none, false, none⟩ ∨
    run w = ⟨3, none, false, none⟩ ∨ run w = ⟨0, none, false, none⟩ ∨
    run w = ⟨4, none, false, none⟩ ∨ run w = ⟨7, none, false, none⟩ ∨
    (∃ req, run w = ⟨5, some req, false, none⟩) ∨
    (∃ req doc, run w = ⟨0, some req, true, some doc⟩) ∨
    (∃ req, run w = ⟨6, some req, true, none⟩) := by
  rcases hda : w.dateArg with _ | s
  · exact Or.inl (run_missing_date w (Or.inl hda))
  by_cases hne : s = ""
  · subst hne
    exact Or.inl (run_missing_date w (Or.inr hda))
  rcases hp : parseYMD s with _ | d
  · exact Or.inr (Or.inl (run_bad_date w s hda hne hp))
  by_cases hin : w.fsExists (inputPath w.baseDir (dateStr d))
  case neg =>
    have hin3 : w.fsExists (inputPath w.baseDir (dateStr d)) = false := by simpa using hin
    exact Or.inr (Or.inr (Or.inl (run_no_input w s d hda hne hp hin3)))
  have hnoskip : w.fsExists (outputPath w.baseDir (dateStr d)) = false ∨ w.force = true →
      run w = ⟨4, none, false, none⟩ ∨ run w = ⟨7, none, false, none⟩ ∨
      (∃ req, run w = ⟨5, some req, false, none⟩) ∨
      (∃ req doc, run w = ⟨0, some req, true, some doc⟩) ∨
      (∃ req, run w = ⟨6, some req, true, none⟩) := by
    intro hns
    rcases hr : w.readResult with e | c
    · exact Or.inl (run_read_err w s d e hda hne hp hin hns hr)
    by_cases hcfg : configOk w
    case neg =>
      have hcfg7 : configOk w = false := by simpa using hcfg
      exact Or.inr (Or.inl (run_no_config w s d c hda hne hp hin hns hr hcfg7))
    rcases hrem : w.remote with e | resp
    · exact Or.inr (Or.inr (Or.inl ⟨_, run_remote_err w s d c e hda hne hp hin hns hr hcfg hrem⟩))
    have hw := run_write w s d c resp hda hne hp hin hns hr hcfg hrem
    by_cases hwo : w.writeOk
    · rw [if_pos hwo] at hw
      exact Or.inr (Or.inr (Or.inr (Or.inl ⟨_, _, hw⟩)))
    · rw [if_neg hwo] at hw
      exact Or.inr (Or.inr (Or.inr (Or.inr ⟨_, hw⟩)))
  by_cases ho : w.fsExists (outputPath w.baseDir (dateStr d))
  · by_cases hf : w.force
    · rcases hnoskip (Or.inr hf) with h | h | h | h | h
      · exact Or.inr (Or.inr (Or.inr (Or.inr (Or.inl h))))
      · exact Or.inr (Or.inr (Or.inr (Or.inr (Or.inr (Or.inl h)))))
      · exact Or.inr (Or.inr (Or.inr (Or.inr (Or.inr (Or.inr (Or.inl h))))))
      · exact Or.inr (Or.inr (Or.inr (Or.inr (Or.inr (Or.inr (Or.inr (Or.inl h)))))))
      · exact Or.inr (Or.inr (Or.inr (Or.inr (Or.inr (Or.inr (Or.inr (Or.inr h)))))))
    · have hf0 : w.force = false := by simpa using hf
      exact Or.inr (Or.inr (Or.inr (Or.inl (run_skip w s d hda hne hp hin ho hf0))))
  · have ho0 : w.fsExists (outputPath w.baseDir (dateStr d)) = false := by simpa using ho
    rcases hnoskip (Or.inl ho0) with h | h | h | h | h
    · exact Or.inr (Or.inr (Or.inr (Or.inr (Or.inl h))))
    · exact Or.inr (Or.inr (Or.inr (Or.inr (Or.inr (Or.inl h)))))
    · exact Or.inr (Or.inr (Or.inr (Or.inr (Or.inr (Or.inr (Or.inl h))))))
    · exact Or.inr (Or.inr (Or.inr (Or.inr (Or.inr (Or.inr (Or.inr (Or.inl h)))))))
    · exact Or.inr (Or.inr (Or.inr (Or.inr (Or.inr (Or.inr (Or.inr (Or.inr h)))))))


/-! ## Claim theorems -/

/-- C1 counterexample: with usage supplying only `input_tokens = 5` (no
service total, output unknown), the pipeline reconstructs the total as `5`
and renders it numerically — not as `n/a` as the claim requires when exactly
one of input/output is known. -/
theorem c1_counterexample :
    totalTokensRaw (Usage.dict [("input_tokens", some 5)]) = none ∧
    outputTokens (Usage.dict [("input_tokens", some 5)]) = none ∧
    totalTokens (Usage.dict [("input_tokens", some 5)]) = some 5 ∧
    renderTok (totalTokens (Usage.dict [("input_tokens", some 5)])) ≠ "n/a" := by
  refine ⟨rfl, rfl, rfl, ?_⟩
  decide

/-- C1 (amended): when the service supplies no total, the reconstructed
total is the sum of those of input/output that are known: both known gives
their sum, exactly one known gives that value, and the total is left unknown
only when neither is known. -/
theorem c1_total_reconstruction (u : Usage) (h : totalTokensRaw u = none) :
    totalTokens u =
      match inputTokens u, outputTokens u with
      | some a, some b => some (a + b)
      | some a, none => some a
      | none, some b => some b
      | none, none => none := by
  unfold totalTokens fixTotal
  rw [h]
  rcases inputTokens u with _ | a <;> rcases outputTokens u with _ | b <;> simp

/-- C1 witness: both counts known and no service total gives their sum. -/
theorem c1_total_reconstruction_witness :
    totalTokens (Usage.dict [("input_tokens", some 3), ("output_tokens", some 4)]) =
      some 7 :=
  c1_total_reconstruction _ rfl

/-- C2 counterexample: the remote service reports input 1, output 2 and a
total of 100; the run persists a document whose footer carries exactly
(1, 2, 100), violating input + output = total. -/
theorem c2_counterexample :
    (run c2World).exitCode = 0 ∧
    ((run c2World).written.map parse_token_line) =
      some (Except.ok (some (1, 2, 100))) ∧
    (1 : Nat) + 2 ≠ 100 := by
  refine ⟨rfl, rfl, by decide⟩

/-- C2 (amended): whenever the service does not supply a total and both
input and output are known, the persisted total equals their sum; when the
service does supply a total, that value is persisted exactly as reported,
so a service-supplied total that disagrees with input + output propagates
into the document. -/
theorem c2_total_consistency (u : Usage) :
    (∀ a b, totalTokensRaw u = none → inputTokens u = some a →
      outputTokens u = some b → totalTokens u = some (a + b)) ∧
    (∀ v, totalTokensRaw u = some v → totalTokens u = some v) := by
  constructor
  · intro a b ht hi ho
    unfold totalTokens fixTotal
    rw [ht, hi, ho]
    simp
  · intro v ht
    unfold totalTokens fixTotal
    rw [ht]

/-- C2 witness: fallback key names with no total sum to 30; a disagreeing
service-supplied total of 100 is kept as-is. -/
theorem c2_total_consistency_witness :
    totalTokens (Usage.dict [("prompt_tokens", some 10), ("completion_tokens", some 20)]) =
      some (10 + 20) ∧
    totalTokens (Usage.dict [("input_tokens", some 1), ("output_tokens", some 2),
      ("total_tokens", some 100)]) = some 100 :=
  ⟨(c2_total_consistency _).1 10 20 rfl rfl rfl,
   (c2_total_consistency _).2 100 rfl⟩

/-- C3 counterexample: two runs with identical date, text, usage, model,
elapsed seconds and reasoning effort but different wall-clock dates at
process start produce different persisted bytes, so the renderer is not
deterministic over the declared inputs alone. -/
theorem c3_counterexample :
    renderDocument ⟨2025, 8, 1⟩ "Body." (some 1) (some 2) (some 3) "gpt-5" 2 "low"
        "1 August 2025" ≠
      renderDocument ⟨2025, 8, 1⟩ "Body." (some 1) (some 2) (some 3) "gpt-5" 2 "low"
        "2 August 2025" := by
  decide

/-- C3 (amended): the renderer is deterministic over the declared inputs
plus the wall-clock date captured at process start: byte-identical output
for componentwise-equal inputs. -/
theorem c3_renderer_deterministic (d₁ d₂ : Date) (c₁ c₂ : String)
    (it₁ it₂ ot₁ ot₂ tt₁ tt₂ : Option Int) (m₁ m₂ : String) (s₁ s₂ : Int)
    (e₁ e₂ cd₁ cd₂ : String)
    (hd : d₁ = d₂) (hc : c₁ = c₂) (hit : it₁ = it₂) (hot : ot₁ = ot₂)
    (htt : tt₁ = tt₂) (hm : m₁ = m₂) (hs : s₁ = s₂) (he : e₁ = e₂)
    (hcd : cd₁ = cd₂) :
    renderDocument d₁ c₁ it₁ ot₁ tt₁ m₁ s₁ e₁ cd₁ =
      renderDocument d₂ c₂ it₂ ot₂ tt₂ m₂ s₂ e₂ cd₂ := by
  subst hd hc hit hot htt hm hs he hcd
  rfl

/-- C3 witness: determinism at one concrete input bundle. -/
theorem c3_renderer_deterministic_witness :
    renderDocument ⟨2025, 8, 1⟩ "B." (some 1) (some 2) (some 3) "m" 2 "low"
        "1 August 2025" =
      renderDocument ⟨2025, 8, 1⟩ "B." (some 1) (some 2) (some 3) "m" 2 "low"
        "1 August 2025" :=
  c3_renderer_deterministic _ _ _ _ _ _ _ _ _ _ _ _ _ _ _ _ _ _
    rfl rfl rfl rfl rfl rfl rfl rfl rfl

/-- C4: when the input dataset exists, the output document for the requested
date already exists, and force is false, the run exits 0, issues no remote
request, never reaches the write step, and writes nothing. -/
theorem c4_skip_no_call (w : World) (s : String) (d : Date) (hs : w.dateArg = some s)
    (hne : s ≠ "") (hp : parseYMD s = some d)
    (hin : w.fsExists (inputPath w.baseDir (dateStr d)) = true)
    (hout : w.fsExists (outputPath w.baseDir (dateStr d)) = true)
    (hforce : w.force = false) :
    (run w).exitCode = 0 ∧ (run w).request = none ∧ (run w).wroteAttempted = false ∧
      (run w).written = none := by
  rw [run_skip w s d hs hne hp hin hout hforce]
  exact ⟨rfl, rfl, rfl, rfl⟩

/-- C4 witness: a concrete world with both artifacts present and force
unset skips with exit 0 and no request. -/
theorem c4_skip_no_call_witness :
    (run c4World).exitCode = 0 ∧ (run c4World).request = none ∧
      (run c4World).wroteAttempted = false ∧ (run c4World).written = none :=
  c4_skip_no_call c4World "2025-08-01" ⟨2025, 8, 1⟩ rfl (by decide) (by decide)
    (by decide) (by decide) rfl

/-- C5: each terminal outcome yields its distinct exit signal: 1 missing
date, 2 malformed date, 3 input dataset not found, 0 already-exists skip,
4 input read error, 7 missing configuration, 5 remote call error, 6 output
write error, 0 success. -/
theorem c5_exit_signals (w : World) :
    ((w.dateArg = none ∨ w.dateArg = some "") → (run w).exitCode = 1) ∧
    (∀ s, w.dateArg = some s → s ≠ "" → parseYMD s = none → (run w).exitCode = 2) ∧
    (∀ s d, w.dateArg = some s → s ≠ "" → parseYMD s = some d →
      w.fsExists (inputPath w.baseDir (dateStr d)) = false → (run w).exitCode = 3) ∧
    (∀ s d, w.dateArg = some s → s ≠ "" → parseYMD s = some d →
      w.fsExists (inputPath w.baseDir (dateStr d)) = true →
      w.fsExists (outputPath w.baseDir (dateStr d)) = true → w.force = false →
      (run w).exitCode = 0) ∧
    (∀ s d e, w.dateArg = some s → s ≠ "" → parseYMD s = some d →
      w.fsExists (inputPath w.baseDir (dateStr d)) = true →
      (w.fsExists (outputPath w.baseDir (dateStr d)) = false ∨ w.force = true) →
      w.readResult = Except.error e → (run w).exitCode = 4) ∧
    (∀ s d c, w.dateArg = some s → s ≠ "" → parseYMD s = some d →
      w.fsExists (inputPath w.baseDir (dateStr d)) = true →
      (w.fsExists (outputPath w.baseDir (dateStr d)) = false ∨ w.force = true) →
      w.readResult = Except.ok c → configOk w = false → (run w).exitCode = 7) ∧
    (∀ s d c e, w.dateArg = some s → s ≠ "" → parseYMD s = some d →
      w.fsExists (inputPath w.baseDir (dateStr d)) = true →
      (w.fsExists (outputPath w.baseDir (dateStr d)) = false ∨ w.force = true) →
      w.readResult = Except.ok c → configOk w = true →
      w.remote = Except.error e → (run w).exitCode = 5) ∧
    (∀ s d c resp, w.dateArg = some s → s ≠ "" → parseYMD s = some d →
      w.fsExists (inputPath w.baseDir (dateStr d)) = true →
      (w.fsExists (outputPath w.baseDir (dateStr d)) = false ∨ w.force = true) →
      w.readResult = Except.ok c → configOk w = true →
      w.remote = Except.ok resp → w.writeOk = false → (run w).exitCode = 6) ∧
    (∀ s d c resp, w.dateArg = some s → s ≠ "" → parseYMD s = some d →
      w.fsExists (inputPath w.baseDir (dateStr d)) = true →
      (w.fsExists (outputPath w.baseDir (dateStr d)) = false ∨ w.force = true) →
      w.readResult = Except.ok c → configOk w = true →
      w.remote = Except.ok resp → w.writeOk = true → (run w).exitCode = 0) := by
  refine ⟨?_, ?_, ?_, ?_, ?_, ?_, ?_, ?_, ?_⟩
  · intro h
    rw [run_missing_date w h]
  · intro s hs hne hp
    rw [run_bad_date w s hs hne hp]
  · intro s d hs hne hp hin
    rw [run_no_input w s d hs hne hp hin]
  · intro s d hs hne hp hin ho hf
    rw [run_skip w s d hs hne hp hin ho hf]
  · intro s d e hs hne hp hin hns hr
    rw [run_read_err w s d e hs hne hp hin hns hr]
  · intro s d c hs hne hp hin hns hr hcfg
    rw [run_no_config w s d c hs hne hp hin hns hr hcfg]
  · intro s d c e hs hne hp hin hns hr hcfg hrem
    rw [run_remote_err w s d c e hs hne hp hin hns hr hcfg hrem]
  · intro s d c resp hs hne hp hin hns hr hcfg hrem hwo
    rw [run_write w s d c resp hs hne hp hin hns hr hcfg hrem, hwo]
    rfl
  · intro s d c resp hs hne hp hin hns hr hcfg hrem hwo
    rw [run_write w s d c resp hs hne hp hin hns hr hcfg hrem, hwo]
    rfl

/-- C5 witness: a run without a date argument exits 1. -/
theorem c5_exit_signals_witness : (run c5World).exitCode = 1 :=
  (c5_exit_signals c5World).1 (Or.inl rfl)

/-- C6: the reasoning-effort parameter is attached to the remote request iff
the configured model identifier equals gpt-5 case-insensitively, and the
disclaimer annotation is included under exactly the same condition. -/
theorem c6_reasoning_iff (model effort instructions input : String) :
    (((mkRequest model effort instructions input).reasoning).isSome = true ↔
      pyLower model = "gpt-5") ∧
    (reasoningEffortText model effort ≠ "" ↔ pyLower model = "gpt-5") := by
  constructor
  · unfold mkRequest
    by_cases h : pyLower model = "gpt-5" <;> simp [h]
  · unfold reasoningEffortText
    by_cases h : pyLower model = "gpt-5" <;> simp [h]
    intro hEq
    have h6 := congrArg String.length hEq
    rw [String.length_append, String.length_append] at h6
    have h7 : (6 : Nat) + (effort.length + 17) = 0 := h6
    omega

/-- C6 witness: for the mixed-case identifier GPT-5 the parameter is
attached and the annotation is nonempty. -/
theorem c6_reasoning_iff_witness :
    ((mkRequest "GPT-5" "low" "i" "x").reasoning).isSome = true ∧
    reasoningEffortText "GPT-5" "low" ≠ "" :=
  ⟨(c6_reasoning_iff "GPT-5" "low" "i" "x").1.mpr (by decide),
   (c6_reasoning_iff "GPT-5" "low" "i" "x").2.mpr (by decide)⟩

/-- C7 counterexample: an attribute-bearing usage object exposing only
`output_tokens = 7` has its `total_tokens` field missing, yet the extracted
total renders as `7`, not as the `n/a` the claim promises for every missing
field. -/
theorem c7_counterexample :
    totalTokensRaw c7Usage = none ∧
    renderTok (totalTokens c7Usage) = "7" ∧
    renderTok (totalTokens c7Usage) ≠ "n/a" :=
  ⟨rfl, rfl, by decide⟩

/-- C7 (amended): extraction is a total function over mapping,
attribute-bearing and absent usage shapes; an unknown input or output field
renders as n/a, and a missing total renders as n/a exactly when neither
input nor output is known to reconstruct it from (if either is known, the
total renders as a number, never n/a). -/
theorem c7_extraction_total (u : Usage) :
    (inputTokens u = none → renderTok (inputTokens u) = "n/a") ∧
    (outputTokens u = none → renderTok (outputTokens u) = "n/a") ∧
    (totalTokensRaw u = none →
      (renderTok (totalTokens u) = "n/a" ↔
        inputTokens u = none ∧ outputTokens u = none)) := by
  refine ⟨fun h => by rw [h]; rfl, fun h => by rw [h]; rfl, fun h1 => ?_⟩
  unfold totalTokens fixTotal
  rcases hi : inputTokens u with _ | a <;> rcases ho : outputTokens u with _ | b <;>
    rw [h1] <;> simp [renderTok_some_ne_na]
  rfl

/-- C7 witness: absent usage renders all three fields as n/a; with only an
output count known the missing total renders numerically. -/
theorem c7_extraction_total_witness :
    renderTok (inputTokens Usage.absent) = "n/a" ∧
    renderTok (outputTokens Usage.absent) = "n/a" ∧
    renderTok (totalTokens Usage.absent) = "n/a" :=
  ⟨(c7_extraction_total Usage.absent).1 rfl,
   (c7_extraction_total Usage.absent).2.1 rfl,
   ((c7_extraction_total Usage.absent).2.2 rfl).mpr ⟨rfl, rfl⟩⟩

/-- C8: every failing exit before the write step (1, 2, 3, 4, 5, 7) reaches
no write and persists nothing; conversely the write step is reached only
with a remote request already issued and ends in exit 0 or 6, and a
persisted document implies exit 0. -/
theorem c8_no_partial_write (w : World) :
    (((run w).exitCode = 1 ∨ (run w).exitCode = 2 ∨ (run w).exitCode = 3 ∨
      (run w).exitCode = 4 ∨ (run w).exitCode = 5 ∨ (run w).exitCode = 7) →
      (run w).wroteAttempted = false ∧ (run w).written = none) ∧
    ((run w).wroteAttempted = true →
      (run w).request.isSome = true ∧ ((run w).exitCode = 0 ∨ (run w).exitCode = 6)) ∧
    ((run w).written.isSome = true →
      (run w).exitCode = 0 ∧ (run w).wroteAttempted = true) := by
  rcases run_shape w with h | h | h | h | h | h | ⟨req, h⟩ | ⟨req, doc, h⟩ | ⟨req, h⟩ <;>
    rw [h] <;> refine ⟨?_, ?_, ?_⟩ <;> simp

/-- C8 witness: a missing input dataset (exit 3) writes nothing. -/
theorem c8_no_partial_write_witness :
    (run c8World).wroteAttempted = false ∧ (run c8World).written = none :=
  (c8_no_partial_write c8World).1 (Or.inr (Or.inr (Or.inl (by decide))))

/-- C9 counterexample: a persisted document whose body itself contains a
token line makes `parse_token_line` return the body triple (1, 1, 2), not
the rendered footer triple (3, 4, 7): the regex search finds the leftmost
match. -/
theorem c9_counterexample :
    parse_token_line
        (renderDocument ⟨2025, 8, 1⟩
          "Input tokens: 1 | Output tokens: 1 | Total tokens: 2"
          (some 3) (some 4) (some 7) "gpt-5" 2 "low" "1 August 2025") =
      Except.ok (some (1, 1, 2)) ∧
    ((1, 1, 2) : Nat × Nat × Nat) ≠ (3, 4, 7) :=
  ⟨rfl, by decide⟩

/-- C9 (amended): for every rendered document whose three token counts are
known non-negative integers, the document carries the fixed-format footer
segment, and provided the document contains exactly one case-insensitive
occurrence of the token-line literal (the footer one), the collaborator's
`parse_token_line` recovers exactly the rendered (input, output, total)
triple. -/
theorem c9_footer_roundtrip (d : Date) (content model effort cur : String) (sec : Int)
    (i o t : Nat)
    (huniq : countTokenLit
      (renderDocument d content (some (i : Int)) (some (o : Int)) (some (t : Int))
        model sec effort cur).data = 1) :
    parse_token_line
        (renderDocument d content (some (i : Int)) (some (o : Int)) (some (t : Int))
          model sec effort cur) = Except.ok (some (i, o, t)) ∧
    ∃ pre, (renderDocument d content (some (i : Int)) (some (o : Int)) (some (t : Int))
        model sec effort cur).data =
      pre ++ tokenSegment (pyCommaNat i).data (pyCommaNat o).data (pyCommaNat t).data
        "._".data := by
  have hpre : (renderDocument d content (some (i : Int)) (some (o : Int)) (some (t : Int))
      model sec effort cur).data =
      (fullDateTitle d ++ pyOr content "" ++ "\n\n" ++
        ("_This summary was AI-generated in " ++ intStr sec ++ " seconds on " ++
          cur ++ " using " ++ pyOr model "an Azure model" ++
          reasoningEffortText model effort ++
          ".<br>It may contain mistakes, or outdated pricing data. " ++
          "Always use the Azure Retail Prices API for live pricing. The existence of a price meter does not always imply model/service availability. Prices vary depending on different factors, including region.<br>")).data ++
      tokenSegment (pyCommaNat i).data (pyCommaNat o).data (pyCommaNat t).data
        "._".data := by
    unfold renderDocument final_markdown disclaimer tokenSegment
    rw [renderTok_ofNat, renderTok_ofNat, renderTok_ofNat]
    simp [data_append, List.append_assoc]
  have hseg : matchTokensAt
      (tokenSegment (pyCommaNat i).data (pyCommaNat o).data (pyCommaNat t).data
        "._".data) =
      some ((pyCommaNat i).data, (pyCommaNat o).data, (pyCommaNat t).data) :=
    matchTokensAt_segment _ _ _ _ (pyCommaNat_dc i) (pyCommaNat_dc o) (pyCommaNat_dc t)
      (pyCommaNat_ne_nil i) (pyCommaNat_ne_nil o) (pyCommaNat_ne_nil t) rfl
  have hsearch : searchTokens
      (renderDocument d content (some (i : Int)) (some (o : Int)) (some (t : Int))
        model sec effort cur).data =
      some ((pyCommaNat i).data, (pyCommaNat o).data, (pyCommaNat t).data) := by
    rw [hpre]
    rw [searchTokens_unique _ _ (segment_startsTok _ _ _ _) (by rw [← hpre]; exact huniq)]
    exact searchTokens_matchAt _ _ hseg
  constructor
  · unfold parse_token_line
    rw [hsearch]
    dsimp only
    rw [toIntStripped_pyCommaNat, toIntStripped_pyCommaNat, toIntStripped_pyCommaNat]
  · exact ⟨_, hpre⟩

/-- C9 witness: a concrete document with counts 1234, 567, 1801 parses back
to exactly that triple. -/
theorem c9_footer_roundtrip_witness :
    parse_token_line
        (renderDocument ⟨2025, 8, 1⟩ "Body." (some (1234 : Int)) (some (567 : Int))
          (some (1801 : Int)) "gpt-5" 2 "low" "1 August 2025") =
      Except.ok (some (1234, 567, 1801)) ∧
    ∃ pre, (renderDocument ⟨2025, 8, 1⟩ "Body." (some (1234 : Int)) (some (567 : Int))
        (some (1801 : Int)) "gpt-5" 2 "low" "1 August 2025").data =
      pre ++ tokenSegment (pyCommaNat 1234).data (pyCommaNat 567).data
        (pyCommaNat 1801).data "._".data :=
  c9_footer_roundtrip ⟨2025, 8, 1⟩ "Body." "gpt-5" "low" "1 August 2025" 2
    1234 567 1801 (by decide)

/-- C10: with a valid date, the input-existence check and the already-exists
skip are decided before the configuration check — they produce exits 3 and 0
for every configuration, including an entirely absent one — and exit 7 can
only occur once the input exists, its contents were read, and the
configuration check failed. -/
theorem c10_check_ordering (w : World) (s : String) (d : Date)
    (hs : w.dateArg = some s) (hne : s ≠ "") (hp : parseYMD s = some d) :
    (w.fsExists (inputPath w.baseDir (dateStr d)) = false →
      run w = ⟨3, none, false, none⟩) ∧
    (w.fsExists (inputPath w.baseDir (dateStr d)) = true →
      w.fsExists (outputPath w.baseDir (dateStr d)) = true → w.force = false →
      run w = ⟨0, none, false, none⟩) ∧
    ((run w).exitCode = 7 →
      w.fsExists (inputPath w.baseDir (dateStr d)) = true ∧
      (∃ c, w.readResult = Except.ok c) ∧ configOk w = false) := by
  refine ⟨fun hin => run_no_input w s d hs hne hp hin,
    fun hin ho hf => run_skip w s d hs hne hp hin ho hf, ?_⟩
  intro h7
  by_cases hin : w.fsExists (inputPath w.baseDir (dateStr d))
  case neg =>
    rw [run_no_input w s d hs hne hp (by simpa using hin)] at h7
    exact absurd h7 (by decide)
  refine ⟨hin, ?_⟩
  have key : w.fsExists (outputPath w.baseDir (dateStr d)) = false ∨ w.force = true →
      (∃ c, w.readResult = Except.ok c) ∧ configOk w = false := by
    intro hns
    rcases hr : w.readResult with e | c
    · rw [run_read_err w s d e hs hne hp hin hns hr] at h7
      simp at h7
    refine ⟨⟨c, rfl⟩, ?_⟩
    by_cases hcfg : configOk w
    · rcases hrem : w.remote with e | resp
      · rw [run_remote_err w s d c e hs hne hp hin hns hr hcfg hrem] at h7
        simp at h7
      · have hw := run_write w s d c resp hs hne hp hin hns hr hcfg hrem
        by_cases hwo : w.writeOk
        · rw [hw, if_pos hwo] at h7
          simp at h7
        · rw [hw, if_neg hwo] at h7
          simp at h7
    · simpa using hcfg
  by_cases ho : w.fsExists (outputPath w.baseDir (dateStr d))
  · by_cases hf : w.force
    · exact key (Or.inr hf)
    · rw [run_skip w s d hs hne hp hin ho (by simpa using hf)] at h7
      exact absurd h7 (by decide)
  · exact key (Or.inl (by simpa using ho))

/-- C10 witness: with no configuration at all and a missing input dataset,
the run exits 3, not 7. -/
theorem c10_check_ordering_witness : run c10World = ⟨3, none, false, none⟩ :=
  (c10_check_ordering c10World "2025-08-01" ⟨2025, 8, 1⟩ rfl (by decide) rfl).1 rfl

end AISummary
